import Mathlib

/-!
Verification of the Polly relay server (`src/test_server/server.py`).

The file shallow-embeds the pure core of the server: the two binary wire
decoders (range scan / lidar and thermal / FLIR), the reconnection backoff
policy, the observer broadcast pass, the browser-command router and the
control-channel send.  Bytes are modelled as `List Nat` (one entry per byte),
machine arithmetic as `Nat`/`Int`, and Python float arithmetic as `ℚ`
(exact for every value reachable in this code, as argued in the comments of
the definitions concerned).
-/

/- ── Range-scan (lidar) decoder ──────────────────────────────────────────────

Source (`server.py`, `handle_phone_binary`, lidar branch):

    for i in range(0, len(data) - 4, 5):
        b0, b1, b2, b3, b4 = data[i:i+5]
        quality = b0 >> 2
        if quality == 0:
            continue
        angle = ((b1 >> 1) | (b2 << 7)) / 64.0
        distance = (b3 | (b4 << 8)) / 4.0
        if distance > 0:
            points.append({"a": round(angle, 1), "d": round(distance, 1), "q": quality})
-/

/-- A decoded range-scan point: angle and distance after Python `round(x, 1)`,
quality as the raw 6-bit field. -/
structure LidarPoint where
  a : ℚ
  d : ℚ
  q : Nat
deriving DecidableEq, Repr

/-- Python `round` rounds half to even.  The values this decoder feeds in are
dyadic rationals `k/64` and `k/4`, which are exact IEEE doubles, so rounding
the rational is exactly what CPython's `round(float, 1)` computes. -/
def roundHalfEven (y : ℚ) : Int :=
  if y - (⌊y⌋ : ℚ) = 1/2 then (if ⌊y⌋ % 2 = 0 then ⌊y⌋ else ⌊y⌋ + 1) else round y

/-- Python `round(x, 1)`: round to one decimal place, half to even. -/
def round1 (x : ℚ) : ℚ := (roundHalfEven (10 * x) : ℚ) / 10

/-- One 5-byte record of the range-scan wire format. -/
structure LidarRecord where
  b0 : Nat
  b1 : Nat
  b2 : Nat
  b3 : Nat
  b4 : Nat
deriving DecidableEq, Repr

/-- The record's bytes in wire order. -/
def LidarRecord.bytes (r : LidarRecord) : List Nat := [r.b0, r.b1, r.b2, r.b3, r.b4]

/-- Quality bits: `quality = b0 >> 2` (bits [7:2] of byte 0). -/
def LidarRecord.quality (r : LidarRecord) : Nat := r.b0 >>> 2

/-- The packed distance field before division: `b3 | (b4 << 8)`. -/
def LidarRecord.rawDistance (r : LidarRecord) : Nat := r.b3 ||| (r.b4 <<< 8)

/-- The packed angle field before division: `(b1 >> 1) | (b2 << 7)`. -/
def LidarRecord.rawAngle (r : LidarRecord) : Nat := (r.b1 >>> 1) ||| (r.b2 <<< 7)

/-- A record survives decoding iff its quality bits are nonzero and its
decoded distance is positive. -/
def LidarRecord.valid (r : LidarRecord) : Prop := r.quality ≠ 0 ∧ 0 < r.rawDistance

instance (r : LidarRecord) : Decidable r.valid := by
  unfold LidarRecord.valid; infer_instance

/-- The point a (valid) record decodes to. -/
def LidarRecord.point (r : LidarRecord) : LidarPoint :=
  { a := round1 ((r.rawAngle : ℚ) / 64)
    d := round1 ((r.rawDistance : ℚ) / 4)
    q := r.quality }

/-- Encoding: `encodeRecords rs` is the byte buffer consisting of the records of `rs`
back to back (length `5 * rs.length`). -/
def encodeRecords (rs : List LidarRecord) : List Nat := (rs.map LidarRecord.bytes).flatten

/-- The lidar branch of `handle_phone_binary`: consume consecutive 5-byte
records (a trailing partial record is ignored), drop records with
`quality == 0` or non-positive distance, keep the rest in receipt order. -/
def lidarDecode : List Nat → List LidarPoint
  | b0 :: b1 :: b2 :: b3 :: b4 :: rest =>
    let quality := b0 >>> 2
    if quality = 0 then lidarDecode rest
    else
      let angle : ℚ := (((b1 >>> 1) ||| (b2 <<< 7) : Nat) : ℚ) / 64
      let distance : ℚ := ((b3 ||| (b4 <<< 8) : Nat) : ℚ) / 4
      if 0 < distance then
        { a := round1 angle, d := round1 distance, q := quality } :: lidarDecode rest
      else lidarDecode rest
  | _ => []

/- ── Thermal (FLIR) decoder ──────────────────────────────────────────────────

Source (`server.py`, `handle_phone_binary`, flir branch):

    if len(data) >= 12:
        width, height, min_val, max_val = struct.unpack_from("<HHII", data, 0)
        pixel_data = data[12:]
        val_range = max(max_val - min_val, 1)
        pixels = []
        for i in range(0, len(pixel_data) - 1, 2):
            raw = struct.unpack_from("<H", pixel_data, i)[0]
            normalized = int((raw - min_val) * 255 / val_range)
            pixels.append(max(0, min(255, normalized)))
-/

/-- Little-endian 16-bit value from two bytes. -/
def u16 (lo hi : Nat) : Nat := lo + 256 * hi

/-- Little-endian 32-bit value from four bytes. -/
def u32 (a b c d : Nat) : Nat := a + 256 * b + 65536 * c + 16777216 * d

/-- A decoded thermal frame (the fields of the broadcast "flir" message). -/
structure FlirFrame where
  width : Nat
  height : Nat
  minVal : Nat
  maxVal : Nat
  pixels : List Int
deriving DecidableEq, Repr

/-- One normalized pixel.  Python computes `int((raw - min_val) * 255 /
val_range)` with float division; the numerator is below `2^41` in magnitude
and `val_range ≤ 2^32`, and for every quotient whose truncation is not
clamped away the IEEE-double error is smaller than the gap to the nearest
integer, so `int(...)` equals exact truncation toward zero, `Int.tdiv`. -/
def flirPixel (minVal : Nat) (valRange : Int) (raw : Nat) : Int :=
  let normalized := Int.tdiv (((raw : Int) - (minVal : Int)) * 255) valRange
  max 0 (min 255 normalized)

/-- The pixel loop: one pixel per 16-bit little-endian sample, a trailing
odd byte ignored (`range(0, len - 1, 2)`). -/
def decodePixels (minVal : Nat) (valRange : Int) : List Nat → List Int
  | lo :: hi :: rest => flirPixel minVal valRange (u16 lo hi) :: decodePixels minVal valRange rest
  | _ => []

/-- The flir branch of `handle_phone_binary`: header `<HHII>` little-endian at
offset 0, body from offset 12; fewer than 12 bytes produce nothing. -/
def flirDecode : List Nat → Option FlirFrame
  | w0 :: w1 :: h0 :: h1 :: m0 :: m1 :: m2 :: m3 :: x0 :: x1 :: x2 :: x3 :: body =>
    let width := u16 w0 w1
    let height := u16 h0 h1
    let minVal := u32 m0 m1 m2 m3
    let maxVal := u32 x0 x1 x2 x3
    let valRange : Int := max ((maxVal : Int) - (minVal : Int)) 1
    some { width := width, height := height, minVal := minVal, maxVal := maxVal,
           pixels := decodePixels minVal valRange body }
  | _ => none

/-- The `minVal` header field read directly from bytes 4–7 of the payload. -/
def headerMin (data : List Nat) : Nat :=
  u32 (data.getD 4 0) (data.getD 5 0) (data.getD 6 0) (data.getD 7 0)

/-- The `maxVal` header field read directly from bytes 8–11 of the payload. -/
def headerMax (data : List Nat) : Nat :=
  u32 (data.getD 8 0) (data.getD 9 0) (data.getD 10 0) (data.getD 11 0)

/-- The `i`-th 16-bit little-endian body sample of a thermal payload. -/
def bodySample (data : List Nat) (i : Nat) : Nat :=
  u16 ((data.drop 12).getD (2 * i) 0) ((data.drop 12).getD (2 * i + 1) 0)

/-- The normalization formula as implemented: clamp of a truncated quotient. -/
def clampTruncPixel (minVal maxVal raw : Nat) : Int :=
  max 0 (min 255 (Int.tdiv (((raw : Int) - (minVal : Int)) * 255)
    (max ((maxVal : Int) - (minVal : Int)) 1)))

/-- The normalization formula as the specification words it: clamp of a
*rounded* quotient (`round` = nearest integer). -/
def clampRoundPixel (minVal maxVal raw : Nat) : Int :=
  max 0 (min 255 (round ((((raw : ℚ) - (minVal : ℚ)) * 255) /
    (max ((maxVal : ℚ) - (minVal : ℚ)) 1))))

/- ── Reconnection backoff (`connect_phone_endpoint` / `connect_phone_control`)

Source:

    backoff = 5
    while True:
        try:
            ... connect ...
            backoff = 5  # reset on success
            ... relay until disconnect ...
        except ...:
            ...
        await asyncio.sleep(backoff)
        backoff = min(backoff * 1.5, 30)

Each connection task owns its local `backoff` variable; the multi-endpoint
state below is the product of those locals.  All values reached are dyadic
rationals `5 * (3/2)^k` or `30`, exact IEEE doubles, so ℚ models the Python
float arithmetic exactly. -/

/-- The initial (and reset) backoff value, 5 seconds. -/
def backoffFloor : ℚ := 5

/-- The backoff ceiling, 30 seconds. -/
def backoffCap : ℚ := 30

/-- One failure step: `backoff = min(backoff * 1.5, 30)`. -/
def backoffNext (b : ℚ) : ℚ := min (b * (3/2)) backoffCap

/-- The backoff value in force when the `n`-th consecutive failure's sleep
begins, counting from a fresh start or the most recent successful
connection: `backoffSeq n` is the `n`-th delay slept. -/
def backoffSeq : Nat → ℚ
  | 0 => backoffFloor
  | n + 1 => backoffNext (backoffSeq n)

/-- The per-endpoint backoff state of the whole relay: each endpoint task's
local `backoff` variable, as one map. -/
def BackoffState := String → ℚ

/-- A connection failure on endpoint `e`: only `e`'s task advances its own
local backoff. -/
def failBackoff (s : BackoffState) (e : String) : BackoffState :=
  fun x => if x = e then backoffNext (s x) else s x

/-- A successful connection on endpoint `e`: `backoff = 5` in `e`'s task. -/
def resetBackoff (s : BackoffState) (e : String) : BackoffState :=
  fun x => if x = e then backoffFloor else s x

/-- The endpoint names the server connects to (`ENDPOINTS` in the source). -/
def ENDPOINTS : List String := ["arduino", "lidar", "camera", "flir", "imu"]

/- ── Broadcast pass (`broadcast_to_browsers`) ────────────────────────────────

Source:

    if not browser_clients:
        return
    stale = set()
    for ws in browser_clients:
        try:
            await ws.send_str(message)
        except (ConnectionError, RuntimeError):
            stale.add(ws)
    browser_clients.difference_update(stale)

Clients are modelled as naturals, the set as the list giving the iteration
order, and a send attempt's outcome by a predicate `sendOk`. -/

/-- An observer client handle. -/
abbrev Client := Nat

/-- The send loop: attempts one send per registered client in iteration
order, recording each attempt's outcome, and collects the failed clients
into the `stale` set (second component). -/
def broadcastLoop (sendOk : Client → Bool) : List Client → List (Client × Bool) × List Client
  | [] => ([], [])
  | c :: rest =>
    let r := broadcastLoop sendOk rest
    if sendOk c then ((c, true) :: r.1, r.2) else ((c, false) :: r.1, c :: r.2)

/-- The broadcast entry point `broadcast_to_browsers`: empty client set returns immediately; otherwise
one full pass over the (unmutated) set, then `difference_update` removes the
stale clients.  Returns the attempted sends and the client set afterwards. -/
def broadcast_to_browsers (sendOk : Client → Bool) (clients : List Client) :
    List (Client × Bool) × List Client :=
  if clients.isEmpty then ([], clients)
  else
    let r := broadcastLoop sendOk clients
    (r.1, clients.filter (fun c => ! r.2.contains c))

/- ── JSON values and `json.dumps` ────────────────────────────────────────────

A small model of the JSON values flowing between browser, router and control
channel.  Numbers are restricted to integers (the command protocol verified
here uses only integers).  Object fields keep insertion order, as Python
dicts do; `Json.get` takes the last binding of a key, matching `json.loads`
on duplicate keys. -/

inductive Json where
  | null
  | bool (b : Bool)
  | num (n : Int)
  | str (s : String)
  | arr (elems : List Json)
  | obj (fields : List (String × Json))
deriving Repr

/-- Python `dict.get(key)` on an object: last binding wins, `None` when absent;
non-objects have no fields.  (Python would raise `AttributeError` on a
non-dict; no claim exercises that path.) -/
def Json.get (j : Json) (key : String) : Option Json :=
  match j with
  | .obj fields => fields.reverse.lookup key
  | _ => none

/-- Escape one character as `json.dumps` does for the character set this
protocol produces (quote and backslash; no control or non-ASCII characters
occur in the modelled payloads). -/
def jsonEscapeChar (c : Char) : String :=
  if c = '"' then "\\\""
  else if c = '\\' then "\\\\"
  else String.singleton c

/-- Escape a string for inclusion in a JSON document. -/
def jsonEscape (s : String) : String := String.join (s.toList.map jsonEscapeChar)

mutual

/-- Python `json.dumps` with its default separators `", "` and `": "`. -/
def Json.dumps : Json → String
  | .null => "null"
  | .bool true => "true"
  | .bool false => "false"
  | .num n => toString n
  | .str s => "\"" ++ jsonEscape s ++ "\""
  | .arr elems => "[" ++ String.intercalate ", " (dumpsList elems) ++ "]"
  | .obj fields => "\x7b" ++ String.intercalate ", " (dumpsFields fields) ++ "\x7d"

/-- Serialize the elements of a JSON array. -/
def dumpsList : List Json → List String
  | [] => []
  | j :: rest => Json.dumps j :: dumpsList rest

/-- Serialize the fields of a JSON object. -/
def dumpsFields : List (String × Json) → List String
  | [] => []
  | (k, v) :: rest => ("\"" ++ jsonEscape k ++ "\": " ++ Json.dumps v) :: dumpsFields rest

end

/- ── Router and control channel ──────────────────────────────────────────────

Source (`handle_browser_message` / `send_control`):

    if msg.get("type") == "motor":
        left = msg.get("left", 0)
        right = msg.get("right", 0)
        cmd = json.dumps({"N": 7, "D1": left, "D2": right})
        ... throttled logging (cosmetic, no effect on commands) ...
        await send_control({"target": "arduino", "cmd": cmd})
    elif msg.get("type") == "stop":
        cmd = json.dumps({"N": 6})
        await send_control({"target": "arduino", "cmd": cmd})
    elif msg.get("type") == "control":
        await send_control(msg.get("payload", {}))

    async def send_control(payload):
        if control_ws is None:
            log.warning(...)   # dropped, log only
            return
        try:
            await control_ws.send(json.dumps(payload))
        except Exception:
            log.warning(...)   # failure absorbed
-/

/-- The live control connection; `sendOk` is whether the transport-level
send succeeds (the `except` branch absorbs a failure). -/
structure ControlLink where
  sendOk : Bool
deriving DecidableEq, Repr

/-- The channel send `send_control`: the list of strings that go out on the control socket.
With no live link (`none`) the command is dropped — nothing is sent, nothing
is queued (the model has no queue, as the source has none), and the caller
gets no error value (the function is total). -/
def send_control (link : Option ControlLink) (payload : Json) : List String :=
  match link with
  | none => []
  | some l => if l.sendOk then [Json.dumps payload] else []

/-- The router `handle_browser_message`, up to the `send_control` call: the payload the
router hands to the control channel, `none` when the message is ignored.
The throttled motor logging is omitted (log-only, commands unaffected). -/
def handle_browser_message (msg : Json) : Option Json :=
  match msg.get "type" with
  | some (.str "motor") =>
    let left := (msg.get "left").getD (.num 0)
    let right := (msg.get "right").getD (.num 0)
    let cmd := Json.dumps (.obj [("N", .num 7), ("D1", left), ("D2", right)])
    some (.obj [("target", .str "arduino"), ("cmd", .str cmd)])
  | some (.str "stop") =>
    let cmd := Json.dumps (.obj [("N", .num 6)])
    some (.obj [("target", .str "arduino"), ("cmd", .str cmd)])
  | some (.str "control") =>
    some ((msg.get "payload").getD (.obj []))
  | _ => none

/-- One observer message end to end: route it, then send the resulting
command (if any) on the control channel; the result is the list of strings
sent upstream on the control socket. -/
def processBrowserMessage (link : Option ControlLink) (msg : Json) : List String :=
  match handle_browser_message msg with
  | some payload => send_control link payload
  | none => []

/- ── Lemmas about the range-scan decoder ───────────────────────────────────── -/

/-- Unfolding of `lidarDecode` on a full 5-byte record. -/
lemma lidarDecode_cons5 (b0 b1 b2 b3 b4 : Nat) (rest : List Nat) :
    lidarDecode (b0 :: b1 :: b2 :: b3 :: b4 :: rest) =
      if b0 >>> 2 = 0 then lidarDecode rest
      else if 0 < (((b3 ||| (b4 <<< 8) : Nat) : ℚ) / 4) then
        { a := round1 ((((b1 >>> 1) ||| (b2 <<< 7) : Nat) : ℚ) / 64),
          d := round1 (((b3 ||| (b4 <<< 8) : Nat) : ℚ) / 4),
          q := b0 >>> 2 } :: lidarDecode rest
      else lidarDecode rest := by
  rfl

/-- Fewer than 5 bytes decode to nothing (partial trailing record). -/
lemma lidarDecode_short (l : List Nat) (h : l.length < 5) : lidarDecode l = [] := by
  rcases l with _ | ⟨a, _ | ⟨b, _ | ⟨c, _ | ⟨d, _ | ⟨e, rest⟩⟩⟩⟩⟩
  · rfl
  · rfl
  · rfl
  · rfl
  · rfl
  · simp at h; omega

/-- Decoding distributes over a record-aligned prefix: equal tails give
equal results. -/
lemma lidarDecode_congr_append_aux :
    ∀ (n : Nat) (pre t1 t2 : List Nat), pre.length ≤ n → pre.length % 5 = 0 →
      lidarDecode t1 = lidarDecode t2 → lidarDecode (pre ++ t1) = lidarDecode (pre ++ t2) := by
  intro n
  induction n with
  | zero =>
    intro pre t1 t2 hlen _ h
    have hp : pre = [] := List.length_eq_zero.mp (Nat.le_zero.mp hlen)
    simpa [hp] using h
  | succ n ih =>
    intro pre t1 t2 hlen hmod h
    rcases pre with _ | ⟨a, _ | ⟨b, _ | ⟨c, _ | ⟨d, _ | ⟨e, rest⟩⟩⟩⟩⟩
    · simpa using h
    · simp at hmod
    · simp at hmod
    · simp at hmod
    · simp at hmod
    · have hr : lidarDecode (rest ++ t1) = lidarDecode (rest ++ t2) := by
        refine ih rest t1 t2 ?_ ?_ h
        · simp at hlen; omega
        · simp at hmod ⊢; omega
      simp only [List.cons_append, lidarDecode_cons5, hr]

/-- Restatement of `lidarDecode_congr_append_aux` without the fuel argument. -/
lemma lidarDecode_congr_append (pre t1 t2 : List Nat) (hmod : pre.length % 5 = 0)
    (h : lidarDecode t1 = lidarDecode t2) :
    lidarDecode (pre ++ t1) = lidarDecode (pre ++ t2) :=
  lidarDecode_congr_append_aux pre.length pre t1 t2 le_rfl hmod h

/-- A buffer of valid records decodes to exactly its records' points, in
receipt order. -/
lemma lidarDecode_encode_valid :
    ∀ rs : List LidarRecord, (∀ r ∈ rs, r.valid) →
      lidarDecode (encodeRecords rs) = rs.map LidarRecord.point := by
  intro rs
  induction rs with
  | nil => intro _; rfl
  | cons r rs ih =>
    intro hv
    obtain ⟨hq, hd⟩ := hv r (by simp)
    have hrest := ih (fun x hx => hv x (by simp [hx]))
    have hshape : encodeRecords (r :: rs) =
        r.b0 :: r.b1 :: r.b2 :: r.b3 :: r.b4 :: encodeRecords rs := by
      simp [encodeRecords, LidarRecord.bytes]
    rw [hshape, lidarDecode_cons5]
    rw [if_neg (by simpa [LidarRecord.quality] using hq)]
    rw [if_pos]
    · simp only [List.map_cons, hrest]
      rfl
    · have hden : (0 : ℚ) < 4 := by norm_num
      have hcast : (0 : ℚ) < ((r.b3 ||| (r.b4 <<< 8) : Nat) : ℚ) := by
        exact_mod_cast hd
      exact div_pos hcast hden

/-- C5: a buffer of `5k` bytes made of `k` valid (quality > 0, distance > 0)
records decodes to exactly `k` points in receipt order, and trailing
`r < 5` extra bytes are ignored: the decode equals that of the aligned
prefix alone. -/
theorem c5_scan_decode :
    (∀ rs : List LidarRecord, (∀ r ∈ rs, r.valid) →
      lidarDecode (encodeRecords rs) = rs.map LidarRecord.point ∧
      (lidarDecode (encodeRecords rs)).length = rs.length) ∧
    (∀ data extra : List Nat, data.length % 5 = 0 → extra.length < 5 →
      lidarDecode (data ++ extra) = lidarDecode data) := by
  constructor
  · intro rs hv
    have h := lidarDecode_encode_valid rs hv
    exact ⟨h, by rw [h, List.length_map]⟩
  · intro data extra hd he
    have h : lidarDecode extra = lidarDecode ([] : List Nat) := by
      rw [lidarDecode_short extra he]; rfl
    have := lidarDecode_congr_append data extra [] hd h
    simpa using this

/-- Witness for C5 at a concrete one-record buffer with two trailing bytes. -/
theorem c5_scan_decode_witness :
    lidarDecode (encodeRecords [⟨4, 0, 0, 1, 0⟩]) =
      [LidarRecord.point ⟨4, 0, 0, 1, 0⟩] ∧
    lidarDecode ([4, 0, 0, 1, 0] ++ [9, 9]) = lidarDecode [4, 0, 0, 1, 0] := by
  refine ⟨(c5_scan_decode.1 [⟨4, 0, 0, 1, 0⟩] ?_).1,
    c5_scan_decode.2 [4, 0, 0, 1, 0] [9, 9] (by decide) (by decide)⟩
  intro r hr
  simp at hr
  subst hr
  decide

/-- C7: a 5-byte record whose quality bits (`b0 >> 2`) are zero contributes
nothing to the decode, whatever its angle and distance bytes: with a
record-aligned prefix before it, deleting the record leaves the decoded
output unchanged. -/
theorem c7_quality_zero_excluded :
    ∀ (pre : List Nat) (r : LidarRecord) (post : List Nat),
      pre.length % 5 = 0 → r.quality = 0 →
      lidarDecode (pre ++ (r.bytes ++ post)) = lidarDecode (pre ++ post) := by
  intro pre r post hpre hq
  have hmid : lidarDecode (r.bytes ++ post) = lidarDecode post := by
    have hshape : r.bytes ++ post = r.b0 :: r.b1 :: r.b2 :: r.b3 :: r.b4 :: post := by
      simp [LidarRecord.bytes]
    rw [hshape, lidarDecode_cons5, if_pos (by simpa [LidarRecord.quality] using hq)]
  exact lidarDecode_congr_append pre _ post hpre hmid

/-- Witness for C7: a quality-zero record with nonzero angle/distance bytes
before a valid record. -/
theorem c7_quality_zero_excluded_witness :
    lidarDecode ([] ++ (LidarRecord.bytes ⟨3, 250, 250, 123, 45⟩ ++ [4, 0, 0, 1, 0])) =
      lidarDecode ([] ++ [4, 0, 0, 1, 0]) :=
  c7_quality_zero_excluded [] ⟨3, 250, 250, 123, 45⟩ [4, 0, 0, 1, 0] (by decide) (by decide)

/- ── Lemmas about the thermal decoder ──────────────────────────────────────── -/

/-- Unfolding of `flirDecode` on a payload with a full 12-byte header. -/
lemma flirDecode_cons12 (w0 w1 h0 h1 m0 m1 m2 m3 x0 x1 x2 x3 : Nat) (body : List Nat) :
    flirDecode (w0 :: w1 :: h0 :: h1 :: m0 :: m1 :: m2 :: m3 :: x0 :: x1 :: x2 :: x3 :: body) =
      some { width := u16 w0 w1, height := u16 h0 h1, minVal := u32 m0 m1 m2 m3,
             maxVal := u32 x0 x1 x2 x3,
             pixels := decodePixels (u32 m0 m1 m2 m3)
               (max ((u32 x0 x1 x2 x3 : Int) - (u32 m0 m1 m2 m3 : Int)) 1) body } := rfl

/-- Fewer than 12 bytes decode to nothing. -/
lemma flirDecode_short (data : List Nat) (h : data.length < 12) : flirDecode data = none := by
  match data with
  | [] | [_] | [_,_] | [_,_,_] | [_,_,_,_] | [_,_,_,_,_] | [_,_,_,_,_,_] | [_,_,_,_,_,_,_]
  | [_,_,_,_,_,_,_,_] | [_,_,_,_,_,_,_,_,_] | [_,_,_,_,_,_,_,_,_,_]
  | [_,_,_,_,_,_,_,_,_,_,_] => rfl
  | _ :: _ :: _ :: _ :: _ :: _ :: _ :: _ :: _ :: _ :: _ :: _ :: _ =>
    simp only [List.length_cons] at h
    omega

/-- The pixel loop produces one pixel per full 16-bit sample. -/
lemma decodePixels_length (mv : Nat) (vr : Int) : ∀ body : List Nat,
    (decodePixels mv vr body).length = body.length / 2
  | [] => by simp [decodePixels]
  | [_] => by simp [decodePixels]
  | lo :: hi :: rest => by
    simp only [decodePixels, List.length_cons, decodePixels_length mv vr rest]
    omega

/-- The `i`-th decoded pixel comes from the `i`-th 16-bit sample of the body. -/
lemma decodePixels_getD (mv : Nat) (vr : Int) : ∀ (body : List Nat) (i : Nat),
    i < (decodePixels mv vr body).length →
    (decodePixels mv vr body).getD i 0 =
      flirPixel mv vr (u16 (body.getD (2 * i) 0) (body.getD (2 * i + 1) 0))
  | [], i => by simp [decodePixels]
  | [_], i => by simp [decodePixels]
  | lo :: hi :: rest, 0 => by
    intro _
    simp [decodePixels]
  | lo :: hi :: rest, (i + 1) => by
    intro h
    have hlen : i < (decodePixels mv vr rest).length := by
      simpa [decodePixels] using h
    have ih := decodePixels_getD mv vr rest i hlen
    have e1 : 2 * (i + 1) = 2 * i + 1 + 1 := by ring
    have e2 : 2 * (i + 1) + 1 = 2 * i + 1 + 1 + 1 := by ring
    simp only [decodePixels, List.getD_cons_succ, e1, e2]
    exact ih

/-- Successful thermal decode: at least 12 bytes, and the fields come from
the header bytes and the body from offset 12. -/
lemma flirDecode_some_shape (data : List Nat) (f : FlirFrame) (hf : flirDecode data = some f) :
    12 ≤ data.length ∧ f.minVal = headerMin data ∧ f.maxVal = headerMax data ∧
      f.pixels = decodePixels (headerMin data)
        (max ((headerMax data : Int) - (headerMin data : Int)) 1) (data.drop 12) := by
  match data with
  | [] | [_] | [_,_] | [_,_,_] | [_,_,_,_] | [_,_,_,_,_] | [_,_,_,_,_,_] | [_,_,_,_,_,_,_]
  | [_,_,_,_,_,_,_,_] | [_,_,_,_,_,_,_,_,_] | [_,_,_,_,_,_,_,_,_,_]
  | [_,_,_,_,_,_,_,_,_,_,_] => simp [flirDecode] at hf
  | w0 :: w1 :: h0 :: h1 :: m0 :: m1 :: m2 :: m3 :: x0 :: x1 :: x2 :: x3 :: body =>
    rw [flirDecode_cons12] at hf
    injection hf with hf
    subst hf
    refine ⟨by simp only [List.length_cons]; omega, ?_, ?_, ?_⟩
    · rfl
    · rfl
    · rfl

/-- C6: the thermal decoder yields nothing (absent, not an error) below 12
bytes, and on success exactly `floor((payload_bytes - 12) / 2)` pixels, so a
dangling odd body byte is ignored. -/
theorem c6_thermal_length :
    (∀ data : List Nat, data.length < 12 → flirDecode data = none) ∧
    (∀ (data : List Nat) (f : FlirFrame), flirDecode data = some f →
      f.pixels.length = (data.length - 12) / 2) := by
  constructor
  · exact flirDecode_short
  · intro data f hf
    obtain ⟨hlen, _, _, hpix⟩ := flirDecode_some_shape data f hf
    rw [hpix, decodePixels_length, List.length_drop]

/-- Witness for C6: an 11-byte payload decodes to nothing; a 15-byte payload
(12-byte header, 3 body bytes) decodes to exactly one pixel. -/
theorem c6_thermal_length_witness :
    flirDecode [0, 0, 0, 0, 0, 0, 0, 0, 0, 0, 0] = none ∧
    flirDecode [1, 0, 1, 0, 0, 0, 0, 0, 0, 0, 0, 0, 1, 0, 7] =
      some ⟨1, 1, 0, 0, [255]⟩ ∧
    (⟨1, 1, 0, 0, [255]⟩ : FlirFrame).pixels.length =
      (([1, 0, 1, 0, 0, 0, 0, 0, 0, 0, 0, 0, 1, 0, 7] : List Nat).length - 12) / 2 :=
  ⟨c6_thermal_length.1 [0, 0, 0, 0, 0, 0, 0, 0, 0, 0, 0] (by decide), by decide,
    c6_thermal_length.2 [1, 0, 1, 0, 0, 0, 0, 0, 0, 0, 0, 0, 1, 0, 7] ⟨1, 1, 0, 0, [255]⟩
      (by decide)⟩

/-- C1 as stated is false: header width=1, height=1, minVal=0, maxVal=2550,
one body sample raw=19 gives the exact quotient 19·255/2550 = 1.9; Python's
`int()` truncates it to 1, while the claimed `round` gives 2. -/
theorem c1_counterexample :
    flirDecode [1, 0, 1, 0, 0, 0, 0, 0, 246, 9, 0, 0, 19, 0] =
      some ⟨1, 1, 0, 2550, [1]⟩ ∧
    clampRoundPixel 0 2550 19 = 2 ∧ (1 : Int) ≠ 2 := by
  refine ⟨by decide, ?_, by decide⟩
  have h : (max ((2550 : ℚ) - (0 : ℚ)) 1) = 2550 := by norm_num
  unfold clampRoundPixel
  push_cast
  rw [h]
  norm_num [round_eq]

/-- C1 (amended): every decoded thermal pixel equals
`clamp(trunc((raw - minVal) * 255 / range), 0, 255)` with `range =
max(maxVal - minVal, 1)`, `trunc` truncating toward zero (Python `int()`),
where `raw` is the corresponding little-endian 16-bit body sample. -/
theorem c1_pixel_formula :
    ∀ (data : List Nat) (f : FlirFrame), flirDecode data = some f →
      ∀ i : Nat, i < f.pixels.length →
        f.pixels.getD i 0 =
          clampTruncPixel (headerMin data) (headerMax data) (bodySample data i) := by
  intro data f hf i hi
  obtain ⟨_, _, _, hpix⟩ := flirDecode_some_shape data f hf
  rw [hpix] at hi ⊢
  rw [decodePixels_getD _ _ _ i hi]
  rfl

/-- Witness for C1 at the payload of the counterexample: the single pixel is
the truncated, clamped quotient. -/
theorem c1_pixel_formula_witness :
    (⟨1, 1, 0, 2550, [1]⟩ : FlirFrame).pixels.getD 0 0 =
      clampTruncPixel (headerMin [1, 0, 1, 0, 0, 0, 0, 0, 246, 9, 0, 0, 19, 0])
        (headerMax [1, 0, 1, 0, 0, 0, 0, 0, 246, 9, 0, 0, 19, 0])
        (bodySample [1, 0, 1, 0, 0, 0, 0, 0, 246, 9, 0, 0, 19, 0] 0) :=
  c1_pixel_formula [1, 0, 1, 0, 0, 0, 0, 0, 246, 9, 0, 0, 19, 0]
    ⟨1, 1, 0, 2550, [1]⟩ (by decide) 0 (by decide)

/-- On a flat scene (`valRange = 1`) every sample not above `minVal` clamps
to a zero pixel. -/
lemma decodePixels_flat_zero (mv : Nat) : ∀ body : List Nat,
    (∀ i, i < (decodePixels mv 1 body).length →
      u16 (body.getD (2 * i) 0) (body.getD (2 * i + 1) 0) ≤ mv) →
    ∀ p ∈ decodePixels mv 1 body, p = 0
  | [] => by simp [decodePixels]
  | [_] => by simp [decodePixels]
  | lo :: hi :: rest => by
    intro hs p hp
    simp only [decodePixels, List.mem_cons] at hp
    rcases hp with rfl | hp
    · have h0 := hs 0 (by simp [decodePixels])
      simp only [Nat.mul_zero, List.getD_cons_zero, Nat.zero_add, List.getD_cons_succ] at h0
      have hle : (u16 lo hi : Int) ≤ (mv : Int) := by exact_mod_cast h0
      have hnp : ((u16 lo hi : Int) - (mv : Int)) * 255 ≤ 0 := by omega
      have h255 : ((u16 lo hi : Int) - (mv : Int)) * 255 ≤ 255 :=
        le_trans hnp (by norm_num)
      simp only [flirPixel]
      rw [Int.tdiv_one, min_eq_right h255, max_eq_left hnp]
    · refine decodePixels_flat_zero mv rest ?_ p hp
      intro i hilen
      have hlen2 : i + 1 < (decodePixels mv 1 (lo :: hi :: rest)).length := by
        simpa [decodePixels] using Nat.succ_lt_succ hilen
      have hb := hs (i + 1) hlen2
      have e1 : 2 * (i + 1) = 2 * i + 1 + 1 := by ring
      have e2 : 2 * (i + 1) + 1 = 2 * i + 1 + 1 + 1 := by ring
      simpa only [e1, e2, List.getD_cons_succ] using hb

/-- C4 as stated is false: minVal == maxVal == 0 with one body sample raw=1
decodes to pixel 255, not 0 (normalization with `range = 1` saturates any
sample above `minVal`). -/
theorem c4_counterexample :
    flirDecode [1, 0, 1, 0, 0, 0, 0, 0, 0, 0, 0, 0, 1, 0] = some ⟨1, 1, 0, 0, [255]⟩ ∧
    (⟨1, 1, 0, 0, [255]⟩ : FlirFrame).minVal = (⟨1, 1, 0, 0, [255]⟩ : FlirFrame).maxVal ∧
    (⟨1, 1, 0, 0, [255]⟩ : FlirFrame).pixels.all (fun p => p == 0) = false :=
  ⟨by decide, by decide, by decide⟩

/-- C4 (amended): when `minVal == maxVal` and no body sample exceeds
`minVal`, all decoded pixels are 0 (the range floor of 1 prevents a
division error). -/
theorem c4_flat_scene :
    ∀ (data : List Nat) (f : FlirFrame), flirDecode data = some f →
      f.minVal = f.maxVal →
      (∀ i, i < f.pixels.length → bodySample data i ≤ f.minVal) →
      f.pixels.all (fun p => p == 0) = true := by
  intro data f hf hmm hs
  obtain ⟨_, hmin, hmax, hpix⟩ := flirDecode_some_shape data f hf
  have heq : headerMin data = headerMax data := by rw [← hmin, ← hmax, hmm]
  have hrange : max ((headerMax data : Int) - (headerMin data : Int)) 1 = 1 := by
    rw [heq]
    simp
  rw [List.all_eq_true]
  intro p hp
  rw [hpix, hrange] at hp
  have hz : p = 0 := by
    refine decodePixels_flat_zero (headerMin data) (data.drop 12) ?_ p hp
    intro i hilen
    have hilen2 : i < f.pixels.length := by
      rw [hpix, hrange]
      exact hilen
    have := hs i hilen2
    rw [hmin] at this
    simpa [bodySample] using this
  simp [hz]

/-- Witness for C4 at the specification's own example: width=2, height=1,
minVal=maxVal=100, two samples of 100 → pixels [0, 0]. -/
theorem c4_flat_scene_witness :
    flirDecode [2, 0, 1, 0, 100, 0, 0, 0, 100, 0, 0, 0, 100, 0, 100, 0] =
      some ⟨2, 1, 100, 100, [0, 0]⟩ ∧
    (⟨2, 1, 100, 100, [0, 0]⟩ : FlirFrame).pixels.all (fun p => p == 0) = true ∧
    (⟨2, 1, 100, 100, [0, 0]⟩ : FlirFrame).pixels = [0, 0] :=
  ⟨by decide,
    c4_flat_scene [2, 0, 1, 0, 100, 0, 0, 0, 100, 0, 0, 0, 100, 0, 100, 0]
      ⟨2, 1, 100, 100, [0, 0]⟩ (by decide) (by decide) (by decide),
    by decide⟩

/- ── Lemmas about the backoff policy ───────────────────────────────────────── -/

/-- Closed form of the backoff sequence: `min(5 · 1.5^n, 30)`. -/
lemma backoffSeq_closed : ∀ n : Nat, backoffSeq n = min (backoffFloor * (3/2) ^ n) backoffCap := by
  intro n
  induction n with
  | zero =>
    simp only [backoffSeq, pow_zero, mul_one]
    rw [min_eq_left (by norm_num [backoffFloor, backoffCap])]
  | succ n ih =>
    rw [backoffSeq, ih, backoffNext]
    rcases le_total (backoffFloor * (3 / 2) ^ n) backoffCap with h | h
    · rw [min_eq_left h, pow_succ, ← mul_assoc]
    · have hcap : (0 : ℚ) ≤ backoffCap := by norm_num [backoffCap]
      have hx : backoffCap ≤ backoffCap * (3/2) := by norm_num [backoffCap]
      have hX : backoffCap ≤ backoffFloor * (3/2) ^ (n + 1) := by
        rw [pow_succ, ← mul_assoc]
        nlinarith [h, hcap]
      rw [min_eq_right h, min_eq_right hx, min_eq_right hX]

/-- C3 as stated is false: the fifth delay slept is 16.875 × 1.5 = 25.3125,
not the 25 the claim lists. -/
theorem c3_counterexample : backoffSeq 4 = 405/16 ∧ (405/16 : ℚ) ≠ 25 := by
  constructor
  · rw [backoffSeq_closed]
    norm_num [backoffFloor, backoffCap, min_def]
  · norm_num

/-- C3 (amended): the consecutive failure delays are 5, 7.5, 11.25, 16.875,
25.3125, then 30 forever — `min(5 · 1.5^n, 30)` — each endpoint's backoff is
untouched by another endpoint's events, and a success resets it to the
floor value 5. -/
theorem c3_backoff_policy :
    (backoffSeq 0 = 5 ∧ backoffSeq 1 = 15/2 ∧ backoffSeq 2 = 45/4 ∧
      backoffSeq 3 = 135/8 ∧ backoffSeq 4 = 405/16) ∧
    (∀ n, 5 ≤ n → backoffSeq n = 30) ∧
    (∀ n, backoffSeq n = min (backoffFloor * (3/2) ^ n) backoffCap) ∧
    (∀ (s : BackoffState) (e e2 : String), e2 ≠ e →
      failBackoff s e e2 = s e2 ∧ resetBackoff s e e2 = s e2) ∧
    (∀ (s : BackoffState) (e : String), resetBackoff s e e = backoffFloor) := by
  refine ⟨⟨?_, ?_, ?_, ?_, ?_⟩, ?_, backoffSeq_closed, ?_, ?_⟩
  · rw [backoffSeq_closed]; norm_num [backoffFloor, backoffCap, min_def]
  · rw [backoffSeq_closed]; norm_num [backoffFloor, backoffCap, min_def]
  · rw [backoffSeq_closed]; norm_num [backoffFloor, backoffCap, min_def]
  · rw [backoffSeq_closed]; norm_num [backoffFloor, backoffCap, min_def]
  · rw [backoffSeq_closed]; norm_num [backoffFloor, backoffCap, min_def]
  · intro n hn
    rw [backoffSeq_closed]
    have h5 : backoffFloor * (3/2) ^ 5 ≤ backoffFloor * (3/2) ^ n := by
      refine mul_le_mul_of_nonneg_left ?_ (by norm_num [backoffFloor])
      exact pow_le_pow_right₀ (by norm_num) hn
    have : backoffCap ≤ backoffFloor * (3/2) ^ n := by
      calc backoffCap ≤ backoffFloor * (3/2) ^ 5 := by
            norm_num [backoffFloor, backoffCap]
        _ ≤ _ := h5
    rw [min_eq_right this]
    norm_num [backoffCap]
  · intro s e e2 he
    constructor
    · simp [failBackoff, he]
    · simp [resetBackoff, he]
  · intro s e
    simp [resetBackoff]

/-- Witness for C3: delay 6 is capped at 30; a failure on `lidar` leaves
`flir`'s backoff untouched; a success on `camera` resets it to 5. -/
theorem c3_backoff_policy_witness :
    backoffSeq 6 = 30 ∧
    failBackoff (fun _ => backoffFloor) "lidar" "flir" = backoffFloor ∧
    resetBackoff (fun _ => backoffCap) "camera" "camera" = backoffFloor :=
  ⟨c3_backoff_policy.2.1 6 (by norm_num),
   (c3_backoff_policy.2.2.2.1 (fun _ => backoffFloor) "lidar" "flir" (by decide)).1,
   c3_backoff_policy.2.2.2.2 (fun _ => backoffCap) "camera"⟩

/- ── Lemmas about the broadcast pass ───────────────────────────────────────── -/

/-- The pass attempts exactly one send per registered client, in iteration
order, with the client set unchanged while iterating. -/
lemma broadcastLoop_fst (sendOk : Client → Bool) : ∀ clients : List Client,
    (broadcastLoop sendOk clients).1 = clients.map (fun c => (c, sendOk c))
  | [] => rfl
  | c :: rest => by
    simp only [broadcastLoop, List.map_cons]
    cases h : sendOk c <;> simp [h, broadcastLoop_fst sendOk rest]

/-- The stale set collected by the pass is exactly the clients whose send
failed. -/
lemma broadcastLoop_snd (sendOk : Client → Bool) : ∀ clients : List Client,
    (broadcastLoop sendOk clients).2 = clients.filter (fun c => ! sendOk c)
  | [] => rfl
  | c :: rest => by
    simp only [broadcastLoop]
    cases h : sendOk c <;> simp [h, List.filter, broadcastLoop_snd sendOk rest]

/-- Applying `difference_update` with the stale set keeps exactly the clients whose
send succeeded. -/
lemma broadcast_remaining (sendOk : Client → Bool) (clients : List Client) :
    clients.filter (fun c => !(broadcastLoop sendOk clients).2.contains c) =
      clients.filter sendOk := by
  rw [broadcastLoop_snd]
  refine List.filter_congr ?_
  intro c hc
  cases h : sendOk c <;> simp [h, hc]

/-- C9: broadcasting to zero observers is a no-op (nothing attempted, set
unchanged); with observers registered, one send is attempted per client over
the unmutated set, and after the pass exactly the clients whose send failed
are purged — the others stay registered and have received the message. -/
theorem c9_broadcast_pass :
    (∀ sendOk : Client → Bool, broadcast_to_browsers sendOk [] = ([], [])) ∧
    (∀ (sendOk : Client → Bool) (clients : List Client), clients ≠ [] →
      (broadcast_to_browsers sendOk clients).1 = clients.map (fun c => (c, sendOk c)) ∧
      (broadcast_to_browsers sendOk clients).2 = clients.filter sendOk) := by
  constructor
  · intro sendOk
    rfl
  · intro sendOk clients hne
    have hni : clients.isEmpty = false := by
      cases clients
      · exact absurd rfl hne
      · rfl
    constructor
    · simp [broadcast_to_browsers, hni, broadcastLoop_fst]
    · simp only [broadcast_to_browsers, hni, Bool.false_eq_true, if_false]
      exact broadcast_remaining sendOk clients

/-- Witness for C9 on clients [1, 2, 3] with only client 2's send
succeeding. -/
theorem c9_broadcast_pass_witness :
    (broadcast_to_browsers (fun c => decide (c % 2 = 0)) [1, 2, 3]).1 =
      [1, 2, 3].map (fun c => (c, decide (c % 2 = 0))) ∧
    (broadcast_to_browsers (fun c => decide (c % 2 = 0)) [1, 2, 3]).2 =
      [1, 2, 3].filter (fun c => decide (c % 2 = 0)) :=
  c9_broadcast_pass.2 (fun c => decide (c % 2 = 0)) [1, 2, 3] (by decide)

/- ── Router and control-channel claims ─────────────────────────────────────── -/

/-- C2 as stated is false: with a live link, handling `{"type":"stop"}` sends
exactly one string on the control socket, but it is the wrapper
`{"target": "arduino", "cmd": "{\"N\": 6}"}`, not the bare `{"N": 6}`
payload. -/
theorem c2_counterexample :
    processBrowserMessage (some ⟨true⟩) (.obj [("type", .str "stop")]) =
      ["\x7b\"target\": \"arduino\", \"cmd\": \"\x7b\\\"N\\\": 6\x7d\"\x7d"] ∧
    "\x7b\"target\": \"arduino\", \"cmd\": \"\x7b\\\"N\\\": 6\x7d\"\x7d" ≠
      Json.dumps (.obj [("N", .num 6)]) := by
  constructor
  · rfl
  · decide

/-- C2 (amended): an observer `{"type":"stop"}` message with a live control
link causes exactly one upstream send on the control link, carrying the
stop command `{"N":6}` serialized inside the wrapper
`{"target":"arduino","cmd":...}`. -/
theorem c2_stop_single_send :
    ∀ msg : Json, msg.get "type" = some (.str "stop") →
      ∀ l : ControlLink, l.sendOk = true →
        processBrowserMessage (some l) msg =
          [Json.dumps (.obj [("target", .str "arduino"),
            ("cmd", .str (Json.dumps (.obj [("N", .num 6)])))])] := by
  intro msg hty l hok
  simp [processBrowserMessage, handle_browser_message, hty, send_control, hok]

/-- Witness for C2 at the literal stop message and a live link. -/
theorem c2_stop_single_send_witness :
    processBrowserMessage (some ⟨true⟩) (.obj [("type", .str "stop")]) =
      [Json.dumps (.obj [("target", .str "arduino"),
        ("cmd", .str (Json.dumps (.obj [("N", .num 6)])))])] :=
  c2_stop_single_send (.obj [("type", .str "stop")]) rfl ⟨true⟩ rfl

/-- C8: with no live control link, any command is dropped: zero strings are
sent upstream, whatever the payload, and likewise for any routed observer
message end to end; the functions are total (the caller gets no error) and
the model contains no queue, matching the source, so nothing is retried. -/
theorem c8_no_link_drop :
    (∀ payload : Json, send_control none payload = []) ∧
    (∀ msg : Json, processBrowserMessage none msg = []) := by
  constructor
  · intro payload
    rfl
  · intro msg
    unfold processBrowserMessage
    cases handle_browser_message msg <;> rfl

/-- C10: a motor message with a missing `left` or `right` field builds the
command with 0 substituted for the missing side — `{"N":7,"D1":0,"D2":0}`
when both are absent — and is routed to a send, not rejected. -/
theorem c10_motor_defaults :
    ∀ msg : Json, msg.get "type" = some (.str "motor") →
      (msg.get "left" = none → msg.get "right" = none →
        handle_browser_message msg = some (.obj [("target", .str "arduino"),
          ("cmd", .str (Json.dumps (.obj [("N", .num 7), ("D1", .num 0),
            ("D2", .num 0)])))])) ∧
      (∀ r : Json, msg.get "left" = none → msg.get "right" = some r →
        handle_browser_message msg = some (.obj [("target", .str "arduino"),
          ("cmd", .str (Json.dumps (.obj [("N", .num 7), ("D1", .num 0),
            ("D2", r)])))])) ∧
      (∀ l : Json, msg.get "left" = some l → msg.get "right" = none →
        handle_browser_message msg = some (.obj [("target", .str "arduino"),
          ("cmd", .str (Json.dumps (.obj [("N", .num 7), ("D1", l),
            ("D2", .num 0)])))])) := by
  intro msg hty
  refine ⟨?_, ?_, ?_⟩
  · intro hl hr
    simp [handle_browser_message, hty, hl, hr]
  · intro r hl hr
    simp [handle_browser_message, hty, hl, hr]
  · intro l hl hr
    simp [handle_browser_message, hty, hl, hr]

/-- Witness for C10 at a motor message carrying neither `left` nor
`right`. -/
theorem c10_motor_defaults_witness :
    handle_browser_message (.obj [("type", .str "motor")]) =
      some (.obj [("target", .str "arduino"),
        ("cmd", .str (Json.dumps (.obj [("N", .num 7), ("D1", .num 0),
          ("D2", .num 0)])))]) :=
  (c10_motor_defaults (.obj [("type", .str "motor")]) rfl).1 rfl rfl
